import Mathlib

/-! Shallow embedding of the AIX chat-generation pipeline:
`chatGenerateContent` in `src/modules/aix/server/api/aix.router.ts`.

External collaborators (dispatch builder, fetch, text decoder, stream
demultiplexer, provider parse functions) are represented by their outcomes,
supplied in an environment; the router's own control flow is embedded
faithfully.  The `IntakeHandler` and `PartTransmitter` classes are not part
of this source tree, so their contracts are modelled from the spec (see the
doc comments of the corresponding definitions). -/

/-- Output events produced on the intake side of the pipeline.  `debugPrint`
models the ad-hoc debug yield of the router (it is not part of the Output
Event union of the spec data model); `op` models one normalized generation
operation forwarded by the PartTransmitter. -/
inductive OutputEvent where
  | start : OutputEvent
  | debugPrint (body : String) : OutputEvent
  | op (operation : String) : OutputEvent
  | termination (cause : String) : OutputEvent
  | error (stage : String) (message : String) (visibleToSharedLog : Bool) : OutputEvent
  deriving DecidableEq

def OutputEvent.isTerminal : OutputEvent → Bool
  | .termination _ => true
  | .error _ _ _ => true
  | _ => false

def OutputEvent.isStart : OutputEvent → Bool
  | .start => true
  | _ => false

def OutputEvent.isDebug : OutputEvent → Bool
  | .debugPrint _ => true
  | _ => false

def OutputEvent.isOpEvent : OutputEvent → Bool
  | .op _ => true
  | _ => false

def OutputEvent.isErrorEvent : OutputEvent → Bool
  | .error _ _ _ => true
  | _ => false

/-- Intake state.  Modelled from the spec: the IntakeHandler class is not in
this source tree; per the spec it owns the single mutable `terminated` flag
of one invocation. -/
structure IntakeState where
  terminated : Bool
  deriving DecidableEq

/-- Modelled from the spec: `yieldStart` emits the `start` event, the very
first event of any invocation. -/
def yieldStart : List OutputEvent := [OutputEvent.start]

/-- Modelled from the spec: `yieldTermination` sets `terminated` and emits
exactly one `termination` event; it is idempotent (a second call emits
nothing). -/
def yieldTermination (st : IntakeState) (cause : String) :
    IntakeState × List OutputEvent :=
  if st.terminated then (st, []) else (⟨true⟩, [OutputEvent.termination cause])

/-- Modelled from the spec: `yieldError` sets `terminated` and emits exactly
one `error` event; idempotent.  The router omits `visibleToSharedLog` for the
prepare and read stages; per the spec those stages never mirror to the shared
log, so the omitted argument defaults to `false` and the embedding passes it
explicitly. -/
def yieldError (st : IntakeState) (stage message : String)
    (visibleToSharedLog : Bool) : IntakeState × List OutputEvent :=
  if st.terminated then (st, [])
  else (⟨true⟩, [OutputEvent.error stage message visibleToSharedLog])

/-- Modelled from the spec: `markTermination` sets `terminated` without
emitting any output event. -/
def markTermination (_st : IntakeState) : IntakeState := ⟨true⟩

/-- One wire message produced by the stream demultiplexer (a `demuxedItem` in
the router): `type` is `"event"` for real events; other variants are
control/comment messages. -/
structure DemuxedItem where
  type : String
  data : String
  name : Option String
  deriving DecidableEq

/-- A provider parse function (`chatGenerateParse`): applied to the payload
and the optional event name, it returns the list of operations it pushed
through the PartTransmitter before returning or throwing, and
`some errorString` when it throws.  Modelled from the spec: the
PartTransmitter synchronously forwards each operation as an output event;
the concrete adapters are external collaborators. -/
abbrev ParseFn : Type := String → Option String → List String × Option String

/-- Outbound request descriptor (spec data model; the dispatch builder is an
external collaborator). -/
structure DispatchRequest where
  url : String
  method : String
  headers : List (String × String)
  body : String
  deriving DecidableEq

/-- Result of `createChatGenerateDispatch` (an external collaborator). -/
structure Dispatch where
  request : DispatchRequest
  demuxerFormat : String
  chatGenerateParse : ParseFn

/-- One outcome of `dispatchReader.read()` in the pump, with text decoding and
demultiplexing (external collaborators that never throw) already applied to
delivered chunks; once the list is exhausted the reader reports `done`.
`abort` is a read failure whose error name is `ResponseAborted`. -/
inductive ReadItem where
  | chunk (items : List DemuxedItem) : ReadItem
  | abort : ReadItem
  | readError (message : String) : ReadItem
  deriving DecidableEq

/-- Model of the fetched `Response`: `textResult` is consulted by the
non-streaming branch, `body` (where `none` models a null body) by the
streaming branch. -/
structure ResponseModel where
  textResult : Except String String
  body : Option (List ReadItem)

structure AccessModel where
  dialect : String
  oaiHost : Option String
  deriving DecidableEq

structure InputModel where
  access : AccessModel
  streaming : Bool
  debugDispatchRequestbody : Bool
  deriving DecidableEq

/-- Outcomes of the external collaborators for one invocation.  Error strings
already are the result of `safeErrorString` with its fallback applied. -/
structure Env where
  buildOutcome : Except String Dispatch
  nodeEnvDevelopment : Bool
  fetchOutcome : Except String ResponseModel

/-- The arguments the router passes to `fetchResponseOrTRPCThrow`. -/
structure FetchCall where
  url : String
  method : String
  headers : List (String × String)
  body : String
  deriving DecidableEq

/-- A raw value surfaced to `IntakeHandler.onReceivedWireMessage`: a demuxed
wire message in streaming mode, the whole body text in non-streaming mode. -/
inductive SurfacedMsg where
  | wire (item : DemuxedItem) : SurfacedMsg
  | body (text : String) : SurfacedMsg
  deriving DecidableEq

structure BatchResult where
  st : IntakeState
  events : List OutputEvent
  surfaced : List DemuxedItem
  parsed : List (String × Option String)
  deriving DecidableEq

structure PumpResult where
  st : IntakeState
  events : List OutputEvent
  surfaced : List DemuxedItem
  parsed : List (String × Option String)
  silent : Bool
  deriving DecidableEq

/-- The full observable behaviour of one invocation: the yielded output
sequence, the wire messages surfaced to the IntakeHandler, the parse calls
made, the arguments of the fetch call when it is reached, and whether the run
ended silently via `markTermination`. -/
structure RunResult where
  output : List OutputEvent
  surfaced : List SurfacedMsg
  parsed : List (String × Option String)
  fetchCall : Option FetchCall
  silent : Bool
  deriving DecidableEq

/-- Modelled from the spec (string helpers are out of scope): capitalize the
first letter of the dialect for display. -/
def serverCapitalizeFirstLetter (s : String) : String :=
  match s.data with
  | [] => s
  | c :: cs => String.mk (Char.toUpper c :: cs)

/-- JS truthiness of the optional `oaiHost` field: absent or empty is falsy. -/
def oaiHostTruthy (a : AccessModel) : Bool :=
  match a.oaiHost with
  | none => false
  | some h => decide (h ≠ "")

/-- The streaming parse-failure message (router line 168). -/
def streamParseErrorMsg (pretty e data : String) : String :=
  " **[Service Parsing Issue] " ++ pretty ++ "**: " ++ e ++
    ".\nInput data: " ++ data ++ ".\nPlease open a support ticket."

/-- The inner `for` loop of the streaming pump (router lines 143-171): each
demuxed item is surfaced via `onReceivedWireMessage`, then in order: the
post-termination guard (`break`), the non-event filter (`continue`), the
`[DONE]` sentinel (`yieldTermination` then `break`) and the parse call
(on throw: `yieldError` then `break`). -/
def processBatch (parse : ParseFn) (pretty : String) (st : IntakeState) :
    List DemuxedItem → BatchResult
  | [] => ⟨st, [], [], []⟩
  | m :: rest =>
    -- intakeHandler.onReceivedWireMessage(demuxedItem): m joins `surfaced`
    if st.terminated then
      -- ignore events post termination (break the inner for)
      ⟨st, [], [m], []⟩
    else if m.type ≠ "event" then
      -- ignore superfluous stream events (continue)
      let r := processBatch parse pretty st rest
      ⟨r.st, r.events, m :: r.surfaced, r.parsed⟩
    else if m.data = "[DONE]" then
      -- [OpenAI] special stream termination marker
      ⟨(yieldTermination st "event-done").1, (yieldTermination st "event-done").2, [m], []⟩
    else
      match parse m.data m.name with
      | (ops, none) =>
        let r := processBatch parse pretty st rest
        ⟨r.st, ops.map OutputEvent.op ++ r.events, m :: r.surfaced,
          (m.data, m.name) :: r.parsed⟩
      | (ops, some e) =>
        ⟨(yieldError st "dispatch-parse" (streamParseErrorMsg pretty e m.data) true).1,
          ops.map OutputEvent.op ++
            (yieldError st "dispatch-parse" (streamParseErrorMsg pretty e m.data) true).2,
          [m], [(m.data, m.name)]⟩

/-- The outer `do … while (!intakeHandler.intakeTerminated)` pump
(router lines 114-173).  The list models the successive reader results;
its exhaustion models the reader reporting `done`. -/
def pump (parse : ParseFn) (pretty : String) (st : IntakeState) :
    List ReadItem → PumpResult
  | [] =>
    -- done: normal dispatch stream closure
    ⟨(yieldTermination st "dispatch-close").1,
      (yieldTermination st "dispatch-close").2, [], [], false⟩
  | ReadItem.abort :: _ =>
    -- read failed with name ResponseAborted: silent termination
    ⟨markTermination st, [], [], [], true⟩
  | ReadItem.readError e :: _ =>
    -- abnormal stream termination
    ⟨(yieldError st "dispatch-read" ("**[Streaming Issue] " ++ pretty ++ "**: " ++ e) false).1,
      (yieldError st "dispatch-read" ("**[Streaming Issue] " ++ pretty ++ "**: " ++ e) false).2,
      [], [], false⟩
  | ReadItem.chunk items :: rest =>
    let r := processBatch parse pretty st items
    if r.st.terminated then ⟨r.st, r.events, r.surfaced, r.parsed, false⟩
    else
      let p := pump parse pretty r.st rest
      ⟨p.st, r.events ++ p.events, r.surfaced ++ p.surfaced,
        r.parsed ++ p.parsed, p.silent⟩

/-- Shallow embedding of `chatGenerateContent` (router lines 29-180). -/
def chatGenerateContent (i : InputModel) (env : Env) : RunResult :=
  let pretty := serverCapitalizeFirstLetter i.access.dialect
  match env.buildOutcome with
  | Except.error e =>
    -- createChatGenerateDispatch threw
    ⟨yieldStart ++
        (yieldError ⟨false⟩ "dispatch-prepare"
          ("**[Configuration Issue] " ++ pretty ++ "**: " ++ e) false).2,
      [], [], none, false⟩
  | Except.ok dispatch =>
    -- optional debug yield, before the fetch
    let dbg : List OutputEvent :=
      if i.debugDispatchRequestbody && env.nodeEnvDevelopment then
        [OutputEvent.debugPrint dispatch.request.body]
      else []
    let call : FetchCall :=
      ⟨dispatch.request.url, "POST", dispatch.request.headers, dispatch.request.body⟩
    match env.fetchOutcome with
    | Except.error e =>
      let extraDevMessage :=
        if env.nodeEnvDevelopment then "\n[DEV_URL: " ++ dispatch.request.url ++ "]" else ""
      let showOnConsoleForNonCustomServers :=
        !(decide (i.access.dialect = "openai")) || !(oaiHostTruthy i.access)
      ⟨yieldStart ++ dbg ++
          (yieldError ⟨false⟩ "dispatch-fetch"
            ("**[Service Issue] " ++ pretty ++ "**: " ++ e ++ extraDevMessage)
            showOnConsoleForNonCustomServers).2,
        [], [], some call, false⟩
    | Except.ok resp =>
      if i.streaming then
        -- STREAM the response: null body is replaced by an empty stream
        let r := pump dispatch.chatGenerateParse pretty ⟨false⟩ (resp.body.getD [])
        ⟨yieldStart ++ dbg ++ r.events, r.surfaced.map SurfacedMsg.wire, r.parsed,
          some call, r.silent⟩
      else
        -- [ALPHA] [NON-STREAMING] read the full response
        match resp.textResult with
        | Except.error e =>
          ⟨yieldStart ++ dbg ++
              (yieldError ⟨false⟩ "dispatch-read"
                ("**[Reading Issue] " ++ pretty ++ "**: " ++ e) false).2,
            [], [], some call, false⟩
        | Except.ok body =>
          -- onReceivedWireMessage(dispatchBody), then one parse call
          match dispatch.chatGenerateParse body none with
          | (ops, none) =>
            ⟨yieldStart ++ dbg ++ ops.map OutputEvent.op,
              [SurfacedMsg.body body], [(body, none)], some call, false⟩
          | (ops, some e) =>
            ⟨yieldStart ++ dbg ++ ops.map OutputEvent.op ++
                (yieldError ⟨false⟩ "dispatch-parse"
                  (" **[Parsing Issue] " ++ pretty ++ "**: " ++ e ++
                    ".\nInput data: " ++ body ++ ".\nPlease open a support ticket.") true).2,
              [SurfacedMsg.body body], [(body, none)], some call, false⟩

/-! ### Derived predicates used by the statements -/

/-- Events that are normalized generation operations only. -/
def opsOnly (l : List OutputEvent) : Prop :=
  ∀ e ∈ l, ∃ o, e = OutputEvent.op o

/-- The spec-side notion of a user-configured custom endpoint: an `openai`
dialect access with a (truthy) user-set host.  Modelled from the spec: the
fetch-error shared-log policy is suppressed exactly for these accesses. -/
def isCustomEndpoint (a : AccessModel) : Bool :=
  decide (a.dialect = "openai") && oaiHostTruthy a

/-- The debug events the run can yield (at most one, after build success). -/
def debugEvs (i : InputModel) (env : Env) : List OutputEvent :=
  match env.buildOutcome with
  | Except.error _ => []
  | Except.ok d =>
    if i.debugDispatchRequestbody && env.nodeEnvDevelopment then
      [OutputEvent.debugPrint d.request.body]
    else []

/-- The run configuration in which the non-streaming branch reads the body
and the single parse call returns without throwing. -/
def nonStreamingParseOk (i : InputModel) (env : Env) : Bool :=
  !i.streaming &&
    match env.buildOutcome with
    | Except.error _ => false
    | Except.ok d =>
      match env.fetchOutcome with
      | Except.error _ => false
      | Except.ok resp =>
        match resp.textResult with
        | Except.error _ => false
        | Except.ok body => (d.chatGenerateParse body none).2.isNone

/-- The run configuration in which the non-streaming branch reads the body
and the single parse call throws. -/
def nsReadOkParseFail (i : InputModel) (env : Env) : Bool :=
  !i.streaming &&
    match env.buildOutcome with
    | Except.error _ => false
    | Except.ok d =>
      match env.fetchOutcome with
      | Except.error _ => false
      | Except.ok resp =>
        match resp.textResult with
        | Except.error _ => false
        | Except.ok body => (d.chatGenerateParse body none).2.isSome

/-- The operations the non-streaming parse call pushed through the
PartTransmitter (empty in any other configuration). -/
def nsParsedOps (i : InputModel) (env : Env) : List String :=
  if i.streaming then []
  else
    match env.buildOutcome with
    | Except.error _ => []
    | Except.ok d =>
      match env.fetchOutcome with
      | Except.error _ => []
      | Except.ok resp =>
        match resp.textResult with
        | Except.error _ => []
        | Except.ok body => (d.chatGenerateParse body none).1

/-- The message of the non-streaming parse-failure error event. -/
def nsParseErrMsg (i : InputModel) (env : Env) : String :=
  match env.buildOutcome with
  | Except.error _ => ""
  | Except.ok d =>
    match env.fetchOutcome with
    | Except.error _ => ""
    | Except.ok resp =>
      match resp.textResult with
      | Except.error _ => ""
      | Except.ok body =>
        match (d.chatGenerateParse body none).2 with
        | none => ""
        | some e =>
          " **[Parsing Issue] " ++ serverCapitalizeFirstLetter i.access.dialect ++
            "**: " ++ e ++ ".\nInput data: " ++ body ++ ".\nPlease open a support ticket."

/-- A demuxed item that terminates the batch when it is processed: a real
event that is either the `[DONE]` sentinel or makes the parse function
throw. -/
def msgTerminates (parse : ParseFn) (m : DemuxedItem) : Bool :=
  decide (m.type = "event") &&
    (decide (m.data = "[DONE]") || (parse m.data m.name).2.isSome)

/-- Which wire messages of a batch get surfaced to the IntakeHandler: all of
them in arrival order up to and including the first terminating one. -/
def surfacedSpec (parse : ParseFn) : List DemuxedItem → List DemuxedItem
  | [] => []
  | m :: rest =>
    if msgTerminates parse m then [m] else m :: surfacedSpec parse rest

/-- The terminal events the inner batch loop can emit. -/
def batchTerminalKind (t : OutputEvent) : Prop :=
  t = OutputEvent.termination "event-done" ∨
    ∃ m, t = OutputEvent.error "dispatch-parse" m true

/-- The terminal events the streaming pump can emit. -/
def pumpTerminalKind (t : OutputEvent) : Prop :=
  t = OutputEvent.termination "dispatch-close" ∨
    t = OutputEvent.termination "event-done" ∨
    (∃ m, t = OutputEvent.error "dispatch-parse" m true) ∨
    (∃ m, t = OutputEvent.error "dispatch-read" m false)

/-- The terminal events a whole run can emit, with the shared-log visibility
each stage carries (the fetch stage computes it from the access). -/
def runTerminalKind (i : InputModel) (t : OutputEvent) : Prop :=
  (∃ m, t = OutputEvent.error "dispatch-prepare" m false) ∨
    (∃ m, t = OutputEvent.error "dispatch-fetch" m
      (!(decide (i.access.dialect = "openai")) || !(oaiHostTruthy i.access))) ∨
    (∃ m, t = OutputEvent.error "dispatch-read" m false) ∨
    (∃ m, t = OutputEvent.error "dispatch-parse" m true) ∨
    t = OutputEvent.termination "dispatch-close" ∨
    t = OutputEvent.termination "event-done"

/-- The input with the debug connection option replaced. -/
def setDebugFlag (i : InputModel) (b : Bool) : InputModel :=
  ⟨i.access, i.streaming, b⟩

/-- The dispatch with the request's `method` field replaced. -/
def withRequestMethod (d : Dispatch) (m : String) : Dispatch :=
  ⟨⟨d.request.url, m, d.request.headers, d.request.body⟩, d.demuxerFormat,
    d.chatGenerateParse⟩

/-! ### Shape lemmas for the inner batch loop and the pump -/


theorem processBatch_nil (p : ParseFn) (pretty : String) (st : IntakeState) :
    processBatch p pretty st [] = ⟨st, [], [], []⟩ := rfl

theorem processBatch_cons_nonevent (p : ParseFn) (pretty : String)
    (m : DemuxedItem) (rest : List DemuxedItem) (hty : m.type ≠ "event") :
    processBatch p pretty ⟨false⟩ (m :: rest) =
      ⟨(processBatch p pretty ⟨false⟩ rest).st,
        (processBatch p pretty ⟨false⟩ rest).events,
        m :: (processBatch p pretty ⟨false⟩ rest).surfaced,
        (processBatch p pretty ⟨false⟩ rest).parsed⟩ := by
  simp [processBatch, hty]

theorem processBatch_cons_done (p : ParseFn) (pretty : String)
    (m : DemuxedItem) (rest : List DemuxedItem)
    (hty : m.type = "event") (hd : m.data = "[DONE]") :
    processBatch p pretty ⟨false⟩ (m :: rest) =
      ⟨⟨true⟩, [OutputEvent.termination "event-done"], [m], []⟩ := by
  simp [processBatch, hty, hd, yieldTermination]

theorem processBatch_cons_parse_ok (p : ParseFn) (pretty : String)
    (m : DemuxedItem) (rest : List DemuxedItem) (ops : List String)
    (hty : m.type = "event") (hd : m.data ≠ "[DONE]")
    (hp : p m.data m.name = (ops, none)) :
    processBatch p pretty ⟨false⟩ (m :: rest) =
      ⟨(processBatch p pretty ⟨false⟩ rest).st,
        ops.map OutputEvent.op ++ (processBatch p pretty ⟨false⟩ rest).events,
        m :: (processBatch p pretty ⟨false⟩ rest).surfaced,
        (m.data, m.name) :: (processBatch p pretty ⟨false⟩ rest).parsed⟩ := by
  simp [processBatch, hty, hd, hp]

theorem processBatch_cons_parse_fail (p : ParseFn) (pretty : String)
    (m : DemuxedItem) (rest : List DemuxedItem) (ops : List String) (e : String)
    (hty : m.type = "event") (hd : m.data ≠ "[DONE]")
    (hp : p m.data m.name = (ops, some e)) :
    processBatch p pretty ⟨false⟩ (m :: rest) =
      ⟨⟨true⟩,
        ops.map OutputEvent.op ++
          [OutputEvent.error "dispatch-parse" (streamParseErrorMsg pretty e m.data) true],
        [m], [(m.data, m.name)]⟩ := by
  simp [processBatch, hty, hd, hp, yieldError]

theorem pump_nil (p : ParseFn) (pretty : String) :
    pump p pretty ⟨false⟩ [] =
      ⟨⟨true⟩, [OutputEvent.termination "dispatch-close"], [], [], false⟩ := by
  simp [pump, yieldTermination]

theorem pump_abort (p : ParseFn) (pretty : String) (st : IntakeState)
    (rest : List ReadItem) :
    pump p pretty st (ReadItem.abort :: rest) = ⟨markTermination st, [], [], [], true⟩ := rfl

theorem pump_readError (p : ParseFn) (pretty : String) (e : String)
    (rest : List ReadItem) :
    pump p pretty ⟨false⟩ (ReadItem.readError e :: rest) =
      ⟨⟨true⟩,
        [OutputEvent.error "dispatch-read" ("**[Streaming Issue] " ++ pretty ++ "**: " ++ e) false],
        [], [], false⟩ := by
  simp [pump, yieldError]

theorem pump_chunk_term (p : ParseFn) (pretty : String)
    (items : List DemuxedItem) (rest : List ReadItem)
    (h : (processBatch p pretty ⟨false⟩ items).st.terminated = true) :
    pump p pretty ⟨false⟩ (ReadItem.chunk items :: rest) =
      ⟨(processBatch p pretty ⟨false⟩ items).st,
        (processBatch p pretty ⟨false⟩ items).events,
        (processBatch p pretty ⟨false⟩ items).surfaced,
        (processBatch p pretty ⟨false⟩ items).parsed, false⟩ := by
  simp [pump, h]

theorem pump_chunk_cont (p : ParseFn) (pretty : String)
    (items : List DemuxedItem) (rest : List ReadItem)
    (h : (processBatch p pretty ⟨false⟩ items).st.terminated = false) :
    pump p pretty ⟨false⟩ (ReadItem.chunk items :: rest) =
      ⟨(pump p pretty (processBatch p pretty ⟨false⟩ items).st rest).st,
        (processBatch p pretty ⟨false⟩ items).events ++
          (pump p pretty (processBatch p pretty ⟨false⟩ items).st rest).events,
        (processBatch p pretty ⟨false⟩ items).surfaced ++
          (pump p pretty (processBatch p pretty ⟨false⟩ items).st rest).surfaced,
        (processBatch p pretty ⟨false⟩ items).parsed ++
          (pump p pretty (processBatch p pretty ⟨false⟩ items).st rest).parsed,
        (pump p pretty (processBatch p pretty ⟨false⟩ items).st rest).silent⟩ := by
  simp [pump, h]

theorem batch_shape (p : ParseFn) (pretty : String) (items : List DemuxedItem) :
    ((processBatch p pretty ⟨false⟩ items).st = ⟨false⟩ ∧
      opsOnly (processBatch p pretty ⟨false⟩ items).events) ∨
    ((processBatch p pretty ⟨false⟩ items).st = ⟨true⟩ ∧
      ∃ l t, (processBatch p pretty ⟨false⟩ items).events = l ++ [t] ∧
        opsOnly l ∧ batchTerminalKind t) := by
  induction items with
  | nil =>
    left
    rw [processBatch_nil]
    exact ⟨rfl, by intro e he; simp at he⟩
  | cons m rest ih =>
    by_cases hty : m.type = "event"
    · by_cases hd : m.data = "[DONE]"
      · right
        rw [processBatch_cons_done p pretty m rest hty hd]
        refine ⟨rfl, [], OutputEvent.termination "event-done", rfl, ?_, Or.inl rfl⟩
        intro e he
        simp at he
      · rcases hp : p m.data m.name with ⟨ops, oe⟩
        cases oe with
        | none =>
          rw [processBatch_cons_parse_ok p pretty m rest ops hty hd hp]
          rcases ih with ⟨hst, hops⟩ | ⟨hst, l, t, hevs, hl, ht⟩
          · left
            refine ⟨hst, ?_⟩
            intro x hx
            rcases List.mem_append.1 hx with h1 | h2
            · rcases List.mem_map.1 h1 with ⟨o, _, rfl⟩
              exact ⟨o, rfl⟩
            · exact hops x h2
          · right
            refine ⟨hst, ops.map OutputEvent.op ++ l, t,
              by simp [hevs, List.append_assoc], ?_, ht⟩
            intro x hx
            rcases List.mem_append.1 hx with h1 | h2
            · rcases List.mem_map.1 h1 with ⟨o, _, rfl⟩
              exact ⟨o, rfl⟩
            · exact hl x h2
        | some e =>
          right
          rw [processBatch_cons_parse_fail p pretty m rest ops e hty hd hp]
          refine ⟨rfl, ops.map OutputEvent.op, _, rfl, ?_, Or.inr ⟨_, rfl⟩⟩
          intro x hx
          rcases List.mem_map.1 hx with ⟨o, _, rfl⟩
          exact ⟨o, rfl⟩
    · rw [processBatch_cons_nonevent p pretty m rest hty]
      exact ih

theorem pump_shape (p : ParseFn) (pretty : String) (reads : List ReadItem) :
    ((pump p pretty ⟨false⟩ reads).silent = true ∧
      opsOnly (pump p pretty ⟨false⟩ reads).events) ∨
    ((pump p pretty ⟨false⟩ reads).silent = false ∧
      ∃ l t, (pump p pretty ⟨false⟩ reads).events = l ++ [t] ∧
        opsOnly l ∧ pumpTerminalKind t) := by
  induction reads with
  | nil =>
    right
    rw [pump_nil]
    exact ⟨rfl, [], _, rfl, by intro x hx; simp at hx, Or.inl rfl⟩
  | cons r rest ih =>
    cases r with
    | abort =>
      left
      rw [pump_abort]
      exact ⟨rfl, by intro x hx; simp at hx⟩
    | readError e =>
      right
      rw [pump_readError]
      exact ⟨rfl, [], _, rfl, by intro x hx; simp at hx,
        Or.inr (Or.inr (Or.inr ⟨_, rfl⟩))⟩
    | chunk items =>
      rcases batch_shape p pretty items with ⟨hst, hops⟩ | ⟨hst, l, t, hevs, hl, ht⟩
      · have hterm : (processBatch p pretty ⟨false⟩ items).st.terminated = false := by
          rw [hst]
        rw [pump_chunk_cont p pretty items rest hterm, hst]
        rcases ih with ⟨hs, ho⟩ | ⟨hs, l2, t2, he2, hl2, ht2⟩
        · left
          refine ⟨hs, ?_⟩
          intro x hx
          rcases List.mem_append.1 hx with h1 | h2
          · exact hops x h1
          · exact ho x h2
        · right
          refine ⟨hs, (processBatch p pretty ⟨false⟩ items).events ++ l2, t2,
            by simp [he2, List.append_assoc], ?_, ht2⟩
          intro x hx
          rcases List.mem_append.1 hx with h1 | h2
          · exact hops x h1
          · exact hl2 x h2
      · have hterm : (processBatch p pretty ⟨false⟩ items).st.terminated = true := by
          rw [hst]
        right
        rw [pump_chunk_term p pretty items rest hterm]
        refine ⟨rfl, l, t, hevs, hl, ?_⟩
        rcases ht with h | ⟨m, hm⟩
        · exact Or.inr (Or.inl h)
        · exact Or.inr (Or.inr (Or.inl ⟨m, hm⟩))

theorem run_shape (i : InputModel) (env : Env) :
    ∃ mid,
      (chatGenerateContent i env).output =
        OutputEvent.start :: debugEvs i env ++ mid ∧
      ((opsOnly mid ∧
          ((chatGenerateContent i env).silent = true ∨
            nonStreamingParseOk i env = true)) ∨
        (∃ l t, mid = l ++ [t] ∧ opsOnly l ∧ runTerminalKind i t ∧
          (chatGenerateContent i env).silent = false ∧
          nonStreamingParseOk i env = false)) := by
  obtain ⟨bo, dev, fo⟩ := env
  cases bo with
  | error e =>
    refine ⟨[OutputEvent.error "dispatch-prepare"
      ("**[Configuration Issue] " ++ serverCapitalizeFirstLetter i.access.dialect ++ "**: " ++ e)
      false], ?_, ?_⟩
    · simp [chatGenerateContent, debugEvs, yieldStart, yieldError]
    · right
      refine ⟨[], _, rfl, by intro x hx; simp at hx, Or.inl ⟨_, rfl⟩, ?_, ?_⟩
      · simp [chatGenerateContent]
      · simp [nonStreamingParseOk]
  | ok d =>
    cases fo with
    | error e =>
      refine ⟨[OutputEvent.error "dispatch-fetch"
        ("**[Service Issue] " ++ serverCapitalizeFirstLetter i.access.dialect ++ "**: " ++ e ++
          (if dev then "\n[DEV_URL: " ++ d.request.url ++ "]" else ""))
        (!(decide (i.access.dialect = "openai")) || !(oaiHostTruthy i.access))], ?_, ?_⟩
      · simp [chatGenerateContent, debugEvs, yieldStart, yieldError]
      · right
        refine ⟨[], _, rfl, by intro x hx; simp at hx,
          Or.inr (Or.inl ⟨_, rfl⟩), ?_, ?_⟩
        · simp [chatGenerateContent]
        · simp [nonStreamingParseOk]
    | ok resp =>
      cases hstr : i.streaming with
      | true =>
        have hout : (chatGenerateContent i ⟨Except.ok d, dev, Except.ok resp⟩).output =
            OutputEvent.start ::
              debugEvs i ⟨Except.ok d, dev, Except.ok resp⟩ ++
              (pump d.chatGenerateParse (serverCapitalizeFirstLetter i.access.dialect)
                ⟨false⟩ (resp.body.getD [])).events := by
          simp [chatGenerateContent, debugEvs, yieldStart, hstr]
        have hsil : (chatGenerateContent i ⟨Except.ok d, dev, Except.ok resp⟩).silent =
            (pump d.chatGenerateParse (serverCapitalizeFirstLetter i.access.dialect)
              ⟨false⟩ (resp.body.getD [])).silent := by
          simp [chatGenerateContent, hstr]
        have hns : nonStreamingParseOk i ⟨Except.ok d, dev, Except.ok resp⟩ = false := by
          simp [nonStreamingParseOk, hstr]
        refine ⟨(pump d.chatGenerateParse (serverCapitalizeFirstLetter i.access.dialect)
          ⟨false⟩ (resp.body.getD [])).events, hout, ?_⟩
        rcases pump_shape d.chatGenerateParse
            (serverCapitalizeFirstLetter i.access.dialect) (resp.body.getD []) with
          ⟨hs, ho⟩ | ⟨hs, l, t, he, hl, ht⟩
        · left
          exact ⟨ho, Or.inl (by rw [hsil, hs])⟩
        · right
          refine ⟨l, t, he, hl, ?_, by rw [hsil, hs], hns⟩
          rcases ht with h | h | ⟨m, hm⟩ | ⟨m, hm⟩
          · exact Or.inr (Or.inr (Or.inr (Or.inr (Or.inl h))))
          · exact Or.inr (Or.inr (Or.inr (Or.inr (Or.inr h))))
          · exact Or.inr (Or.inr (Or.inr (Or.inl ⟨m, hm⟩)))
          · exact Or.inr (Or.inr (Or.inl ⟨m, hm⟩))
      | false =>
        cases htext : resp.textResult with
        | error e =>
          refine ⟨[OutputEvent.error "dispatch-read"
            ("**[Reading Issue] " ++ serverCapitalizeFirstLetter i.access.dialect ++ "**: " ++ e)
            false], ?_, ?_⟩
          · simp [chatGenerateContent, debugEvs, yieldStart, yieldError, hstr, htext]
          · right
            refine ⟨[], _, rfl, by intro x hx; simp at hx,
              Or.inr (Or.inr (Or.inl ⟨_, rfl⟩)), ?_, ?_⟩
            · simp [chatGenerateContent, hstr, htext]
            · simp [nonStreamingParseOk, hstr, htext]
        | ok body =>
          rcases hp : d.chatGenerateParse body none with ⟨ops, oe⟩
          cases oe with
          | none =>
            refine ⟨ops.map OutputEvent.op, ?_, ?_⟩
            · simp [chatGenerateContent, debugEvs, yieldStart, hstr, htext, hp]
            · left
              refine ⟨?_, Or.inr ?_⟩
              · intro x hx
                rcases List.mem_map.1 hx with ⟨o, _, rfl⟩
                exact ⟨o, rfl⟩
              · simp [nonStreamingParseOk, hstr, htext, hp]
          | some e =>
            refine ⟨ops.map OutputEvent.op ++
              [OutputEvent.error "dispatch-parse"
                (" **[Parsing Issue] " ++ serverCapitalizeFirstLetter i.access.dialect ++
                  "**: " ++ e ++ ".\nInput data: " ++ body ++
                  ".\nPlease open a support ticket.") true], ?_, ?_⟩
            · simp [chatGenerateContent, debugEvs, yieldStart, yieldError, hstr, htext, hp]
            · right
              refine ⟨ops.map OutputEvent.op, _, rfl, ?_,
                Or.inr (Or.inr (Or.inr (Or.inl ⟨_, rfl⟩))), ?_, ?_⟩
              · intro x hx
                rcases List.mem_map.1 hx with ⟨o, _, rfl⟩
                exact ⟨o, rfl⟩
              · simp [chatGenerateContent, hstr, htext, hp]
              · simp [nonStreamingParseOk, hstr, htext, hp]

/-! ### Small facts about event classes -/

theorem opsOnly_facts (l : List OutputEvent) (h : opsOnly l) :
    ∀ e ∈ l, e.isTerminal = false ∧ e.isStart = false ∧ e.isDebug = false ∧
      e.isErrorEvent = false := by
  intro e he
  rcases h e he with ⟨o, rfl⟩
  exact ⟨rfl, rfl, rfl, rfl⟩

theorem runTerminalKind_facts (i : InputModel) (t : OutputEvent)
    (h : runTerminalKind i t) :
    t.isTerminal = true ∧ t.isStart = false ∧ t.isDebug = false := by
  rcases h with ⟨m, rfl⟩ | ⟨m, rfl⟩ | ⟨m, rfl⟩ | ⟨m, rfl⟩ | rfl | rfl <;>
    exact ⟨rfl, rfl, rfl⟩

theorem debugEvs_facts (i : InputModel) (env : Env) :
    ∀ e ∈ debugEvs i env, e.isTerminal = false ∧ e.isStart = false ∧
      e.isDebug = true ∧ e.isErrorEvent = false := by
  intro e he
  unfold debugEvs at he
  split at he
  · simp at he
  · split at he
    · simp at he
      subst he
      exact ⟨rfl, rfl, rfl, rfl⟩
    · simp at he

theorem debugEvs_spec (i : InputModel) (env : Env) :
    debugEvs i env = [] ∨
      (i.debugDispatchRequestbody = true ∧ env.nodeEnvDevelopment = true ∧
        ∃ b, debugEvs i env = [OutputEvent.debugPrint b]) := by
  unfold debugEvs
  split
  · exact Or.inl rfl
  · split
    · rename_i hc
      rcases Bool.and_eq_true_iff.1 hc with ⟨h1, h2⟩
      exact Or.inr ⟨h1, h2, _, rfl⟩
    · exact Or.inl rfl

/-! ### Claim theorems -/

/-- Claim C1, counterexample to the claim as stated: two concrete runs end
without any terminal event as last element.  The first is a non-streaming run
whose build, fetch, read and parse all succeed (the router returns without
ever yielding a termination event); the second is a streaming run whose first
chunk read fails with the client-abort condition (silent `markTermination`).
In both, the whole output is `[start]`, and `start` is not terminal. -/
theorem output_lifecycle_cex :
    ((chatGenerateContent ⟨⟨"openai", none⟩, false, false⟩
        ⟨Except.ok ⟨⟨"u", "POST", [], "b"⟩, "sse", fun _ _ => ([], none)⟩, false,
          Except.ok ⟨Except.ok "body", none⟩⟩).output = [OutputEvent.start] ∧
      (chatGenerateContent ⟨⟨"openai", none⟩, true, false⟩
        ⟨Except.ok ⟨⟨"u", "POST", [], "b"⟩, "sse", fun _ _ => ([], none)⟩, false,
          Except.ok ⟨Except.ok "", some [ReadItem.abort]⟩⟩).output = [OutputEvent.start]) ∧
    OutputEvent.isTerminal OutputEvent.start = false := by
  exact ⟨⟨by decide, by decide⟩, rfl⟩

/-- Claim C1 (amended): for every invocation the output sequence starts with
exactly one `start` event, no event other than (possibly) the last one is
terminal, and the last element is a terminal event unless the run ended
silently via `markTermination` on a client abort, or it is a non-streaming
run whose single parse call succeeded (which — a defect against the code's
own closing comment — emits no terminal event). -/
theorem output_lifecycle (i : InputModel) (env : Env) :
    (chatGenerateContent i env).output.head? = some OutputEvent.start ∧
    ((chatGenerateContent i env).output.filter OutputEvent.isStart).length = 1 ∧
    (∀ e ∈ (chatGenerateContent i env).output.dropLast, e.isTerminal = false) ∧
    ((chatGenerateContent i env).silent = false → nonStreamingParseOk i env = false →
      ∃ t, (chatGenerateContent i env).output.getLast? = some t ∧
        t.isTerminal = true) := by
  obtain ⟨mid, hout, hcases⟩ := run_shape i env
  have hdbg := debugEvs_facts i env
  refine ⟨by simp [hout], ?_, ?_, ?_⟩
  · -- exactly one start event
    have htail : ∀ e ∈ debugEvs i env ++ mid, ¬(OutputEvent.isStart e = true) := by
      intro e he
      rcases List.mem_append.1 he with h1 | h2
      · simp [(hdbg e h1).2.1]
      · rcases hcases with ⟨hops, _⟩ | ⟨l, t, hmid, hl, ht, _, _⟩
        · simp [(opsOnly_facts mid hops e h2).2.1]
        · rw [hmid] at h2
          rcases List.mem_append.1 h2 with h3 | h4
          · simp [(opsOnly_facts l hl e h3).2.1]
          · have he2 : e = t := by simpa using h4
            subst he2
            simp [(runTerminalKind_facts i e ht).2.1]
    have h1 : List.filter OutputEvent.isStart
        (OutputEvent.start :: (debugEvs i env ++ mid)) =
        OutputEvent.start :: List.filter OutputEvent.isStart (debugEvs i env ++ mid) :=
      List.filter_cons_of_pos rfl
    rw [hout, List.cons_append, h1, List.filter_eq_nil_iff.2 htail]
    rfl
  · -- no terminal event before the last position
    rcases hcases with ⟨hops, _⟩ | ⟨l, t, hmid, hl, ht, _, _⟩
    · intro e he
      have hmem := List.mem_of_mem_dropLast he
      rw [hout] at hmem
      rcases List.mem_cons.1 hmem with rfl | h
      · rfl
      · rcases List.mem_append.1 h with h1 | h2
        · exact (hdbg e h1).1
        · exact (opsOnly_facts mid hops e h2).1
    · intro e he
      rw [hout, hmid] at he
      rw [show OutputEvent.start :: debugEvs i env ++ (l ++ [t]) =
        (OutputEvent.start :: (debugEvs i env ++ l)) ++ [t] by simp] at he
      rw [List.dropLast_concat] at he
      rcases List.mem_cons.1 he with rfl | h
      · rfl
      · rcases List.mem_append.1 h with h1 | h2
        · exact (hdbg e h1).1
        · exact (opsOnly_facts l hl e h2).1
  · -- terminal last element outside the two silent configurations
    intro hsil hns
    rcases hcases with ⟨_, hdisj⟩ | ⟨l, t, hmid, _, ht, _, _⟩
    · rcases hdisj with h | h
      · rw [hsil] at h
        cases h
      · rw [hns] at h
        cases h
    · refine ⟨t, ?_, (runTerminalKind_facts i t ht).1⟩
      rw [hout, hmid, show OutputEvent.start :: debugEvs i env ++ (l ++ [t]) =
        (OutputEvent.start :: (debugEvs i env ++ l)) ++ [t] by simp]
      exact List.getLast?_concat _

/-- Witness for the amended C1 theorem at a concrete input: a run whose
dispatch build fails ends with a terminal event as last element. -/
theorem output_lifecycle_w :
    ∃ t, (chatGenerateContent ⟨⟨"a", none⟩, false, false⟩
        ⟨Except.error "bad", false, Except.error "x"⟩).output.getLast? = some t ∧
      t.isTerminal = true :=
  (output_lifecycle ⟨⟨"a", none⟩, false, false⟩
    ⟨Except.error "bad", false, Except.error "x"⟩).2.2.2 rfl rfl

/-- Claim C5: every `dispatch-fetch` error event carries the shared-log flag
`false` exactly when the access is a user-configured custom endpoint (an
`openai` dialect with a set `oaiHost`), and for every error event of any
other stage the flag does not depend on the access at all: it is `true` for
`dispatch-parse` and `false` for `dispatch-prepare` and `dispatch-read`. -/
theorem error_visibility_policy (i : InputModel) (env : Env) :
    ∀ st msg vis, OutputEvent.error st msg vis ∈ (chatGenerateContent i env).output →
      (st = "dispatch-fetch" → vis = !(isCustomEndpoint i.access)) ∧
      (st ≠ "dispatch-fetch" → vis = decide (st = "dispatch-parse")) := by
  intro st msg vis hmem
  obtain ⟨mid, hout, hcases⟩ := run_shape i env
  rw [hout] at hmem
  rcases List.mem_cons.1 hmem with h | h
  · cases h
  rcases List.mem_append.1 h with h1 | h2
  · have := (debugEvs_facts i env _ h1).2.2.2
    simp [OutputEvent.isErrorEvent] at this
  rcases hcases with ⟨hops, _⟩ | ⟨l, t, hmid, hl, ht, _, _⟩
  · rcases hops _ h2 with ⟨o, ho⟩
    cases ho
  · rw [hmid] at h2
    rcases List.mem_append.1 h2 with h3 | h4
    · rcases hl _ h3 with ⟨o, ho⟩
      cases ho
    · have heq : OutputEvent.error st msg vis = t := by simpa using h4
      rcases ht with ⟨m2, rfl⟩ | ⟨m2, rfl⟩ | ⟨m2, rfl⟩ | ⟨m2, rfl⟩ | rfl | rfl
      · obtain ⟨rfl, -, rfl⟩ : st = "dispatch-prepare" ∧ msg = m2 ∧ vis = false := by
          simpa using heq
        exact ⟨fun hcontra => absurd hcontra (by decide), fun _ => by decide⟩
      · obtain ⟨rfl, -, rfl⟩ : st = "dispatch-fetch" ∧ msg = m2 ∧
            vis = (!(decide (i.access.dialect = "openai")) || !(oaiHostTruthy i.access)) := by
          simpa using heq
        refine ⟨fun _ => ?_, fun hcontra => absurd rfl hcontra⟩
        simp [isCustomEndpoint, Bool.not_and]
      · obtain ⟨rfl, -, rfl⟩ : st = "dispatch-read" ∧ msg = m2 ∧ vis = false := by
          simpa using heq
        exact ⟨fun hcontra => absurd hcontra (by decide), fun _ => by decide⟩
      · obtain ⟨rfl, -, rfl⟩ : st = "dispatch-parse" ∧ msg = m2 ∧ vis = true := by
          simpa using heq
        exact ⟨fun hcontra => absurd hcontra (by decide), fun _ => by decide⟩
      · cases heq
      · cases heq

/-- Witness for the C5 theorem: a concrete fetch failure against a custom
`openai` endpoint carries shared-log visibility `false`. -/
theorem error_visibility_w :
    false = !(isCustomEndpoint ⟨"openai", some "h"⟩) :=
  (error_visibility_policy ⟨⟨"openai", some "h"⟩, true, false⟩
    ⟨Except.ok ⟨⟨"u", "POST", [], "b"⟩, "sse", fun _ _ => ([], none)⟩, false,
      Except.error "down"⟩ "dispatch-fetch" "**[Service Issue] Openai**: down" false
    (by decide)).1 rfl

/-- Claim C6: a chunk read that fails with the client-abort condition ends
the pump via `markTermination` — terminated flag set, no output event at all,
hence no error event — while any other read failure emits exactly one
`error(dispatch-read)` event (with shared-log visibility `false`). -/
theorem abort_silent_termination (p : ParseFn) (pretty : String)
    (st : IntakeState) (rest : List ReadItem) (msg : String) :
    pump p pretty st (ReadItem.abort :: rest) =
      ⟨markTermination st, [], [], [], true⟩ ∧
    (st.terminated = false →
      pump p pretty st (ReadItem.readError msg :: rest) =
        ⟨⟨true⟩,
          [OutputEvent.error "dispatch-read"
            ("**[Streaming Issue] " ++ pretty ++ "**: " ++ msg) false],
          [], [], false⟩) := by
  refine ⟨rfl, fun h => ?_⟩
  have hst : st = ⟨false⟩ := by
    cases st
    simp_all
  subst hst
  exact pump_readError p pretty msg rest

/-- Witness for the C6 theorem at concrete inputs. -/
theorem abort_silent_termination_w :
    pump (fun _ _ => ([], none)) "P" ⟨false⟩ [ReadItem.readError "x"] =
      ⟨⟨true⟩,
        [OutputEvent.error "dispatch-read" ("**[Streaming Issue] " ++ "P" ++ "**: " ++ "x") false],
        [], [], false⟩ :=
  (abort_silent_termination (fun _ _ => ([], none)) "P" ⟨false⟩ [] "x").2 rfl

/-- Claim C7: when the inbound byte stream reports natural completion (the
reader returns `done`) before any termination has been flagged, the pump
emits `termination(dispatch-close)` and exits. -/
theorem stream_close_termination (p : ParseFn) (pretty : String)
    (st : IntakeState) (h : st.terminated = false) :
    pump p pretty st [] =
      ⟨⟨true⟩, [OutputEvent.termination "dispatch-close"], [], [], false⟩ := by
  have hst : st = ⟨false⟩ := by
    cases st
    simp_all
  subst hst
  exact pump_nil p pretty

/-- Witness for the C7 theorem at concrete inputs. -/
theorem stream_close_termination_w :
    pump (fun _ _ => ([], none)) "P" ⟨false⟩ [] =
      ⟨⟨true⟩, [OutputEvent.termination "dispatch-close"], [], [], false⟩ :=
  stream_close_termination (fun _ _ => ([], none)) "P" ⟨false⟩ rfl

/-- Claim C10: in streaming mode a successful fetch whose response carries no
body stream is given an empty readable stream, so the run's Output Event
sequence (the debug diagnostic yield is not an Output Event of the spec data
model, so it is filtered here) is exactly `[start, termination(dispatch-close)]`,
with no error event. -/
theorem null_body_empty_stream (i : InputModel) (env : Env) (d : Dispatch)
    (resp : ResponseModel) (hs : i.streaming = true)
    (hb : env.buildOutcome = Except.ok d) (hf : env.fetchOutcome = Except.ok resp)
    (hnull : resp.body = none) :
    (chatGenerateContent i env).output.filter (fun e => !e.isDebug) =
      [OutputEvent.start, OutputEvent.termination "dispatch-close"] := by
  obtain ⟨bo, dev, fo⟩ := env
  cases hb
  cases hf
  by_cases hc : (i.debugDispatchRequestbody && dev) = true
  · simp [chatGenerateContent, hs, hnull, pump_nil, yieldStart, hc, OutputEvent.isDebug,
      List.filter]
  · simp [chatGenerateContent, hs, hnull, pump_nil, yieldStart, hc, OutputEvent.isDebug,
      List.filter]

/-- Witness for the C10 theorem at concrete inputs. -/
theorem null_body_empty_stream_w :
    (chatGenerateContent ⟨⟨"openai", none⟩, true, true⟩
        ⟨Except.ok ⟨⟨"u", "POST", [], "b"⟩, "sse", fun _ _ => ([], none)⟩, true,
          Except.ok ⟨Except.ok "", none⟩⟩).output.filter (fun e => !e.isDebug) =
      [OutputEvent.start, OutputEvent.termination "dispatch-close"] :=
  null_body_empty_stream ⟨⟨"openai", none⟩, true, true⟩
    ⟨Except.ok ⟨⟨"u", "POST", [], "b"⟩, "sse", fun _ _ => ([], none)⟩, true,
      Except.ok ⟨Except.ok "", none⟩⟩
    ⟨⟨"u", "POST", [], "b"⟩, "sse", fun _ _ => ([], none)⟩
    ⟨Except.ok "", none⟩ rfl rfl rfl rfl

/-- Claim C3, counterexample to the claim as stated: in a streaming run whose
single chunk demuxes to a `[DONE]` sentinel followed by another event, only
the sentinel is surfaced to the IntakeHandler — the trailing message is not
surfaced (the loop breaks at the terminating message), contradicting
"every wire message is surfaced regardless of whether an earlier message in
the same batch caused termination". -/
theorem surfaced_cex :
    (chatGenerateContent ⟨⟨"openai", none⟩, true, false⟩
        ⟨Except.ok ⟨⟨"u", "POST", [], "b"⟩, "sse", fun _ _ => ([], none)⟩, false,
          Except.ok ⟨Except.ok "",
            some [ReadItem.chunk
              [⟨"event", "[DONE]", none⟩, ⟨"event", "tail", none⟩]]⟩⟩).surfaced =
      [SurfacedMsg.wire ⟨"event", "[DONE]", none⟩] := by
  decide

/-- Claim C3 (amended): the inner loop surfaces the demuxed wire messages of
a batch in order, regardless of variant, up to and including the first
terminating message (the `[DONE]` sentinel or a message whose parse throws);
messages after the first terminating one are not surfaced, because the loop
breaks at the terminating message itself (the separate post-termination
surfacing branch is unreachable from a non-terminated state). -/
theorem surfaced_up_to_terminator (p : ParseFn) (pretty : String)
    (items : List DemuxedItem) :
    (processBatch p pretty ⟨false⟩ items).surfaced = surfacedSpec p items := by
  induction items with
  | nil => rfl
  | cons m rest ih =>
    by_cases hty : m.type = "event"
    · by_cases hd : m.data = "[DONE]"
      · rw [processBatch_cons_done p pretty m rest hty hd]
        have hterm : msgTerminates p m = true := by
          simp [msgTerminates, hty, hd]
        simp [surfacedSpec, hterm]
      · rcases hp : p m.data m.name with ⟨ops, oe⟩
        cases oe with
        | none =>
          rw [processBatch_cons_parse_ok p pretty m rest ops hty hd hp]
          have hterm : msgTerminates p m = false := by
            simp [msgTerminates, hty, hd, hp]
          simp [surfacedSpec, hterm, ih]
        | some e =>
          rw [processBatch_cons_parse_fail p pretty m rest ops e hty hd hp]
          have hterm : msgTerminates p m = true := by
            simp [msgTerminates, hty, hd, hp]
          simp [surfacedSpec, hterm]
    · rw [processBatch_cons_nonevent p pretty m rest hty]
      have hterm : msgTerminates p m = false := by
        simp [msgTerminates, hty]
      simp [surfacedSpec, hterm, ih]

theorem processBatch_append_done (p : ParseFn) (pretty : String)
    (pre post : List DemuxedItem) (m : DemuxedItem)
    (hty : m.type = "event") (hd : m.data = "[DONE]")
    (hpre : (processBatch p pretty ⟨false⟩ pre).st = ⟨false⟩) :
    processBatch p pretty ⟨false⟩ (pre ++ m :: post) =
      ⟨⟨true⟩,
        (processBatch p pretty ⟨false⟩ pre).events ++
          [OutputEvent.termination "event-done"],
        (processBatch p pretty ⟨false⟩ pre).surfaced ++ [m],
        (processBatch p pretty ⟨false⟩ pre).parsed⟩ := by
  induction pre with
  | nil =>
    rw [List.nil_append, processBatch_cons_done p pretty m post hty hd]
    simp [processBatch_nil]
  | cons a pre ih =>
    by_cases haty : a.type = "event"
    · by_cases had : a.data = "[DONE]"
      · exfalso
        rw [processBatch_cons_done p pretty a pre haty had] at hpre
        simp at hpre
      · rcases hp : p a.data a.name with ⟨ops, oe⟩
        cases oe with
        | none =>
          rw [processBatch_cons_parse_ok p pretty a pre ops haty had hp] at hpre
          rw [List.cons_append,
            processBatch_cons_parse_ok p pretty a (pre ++ m :: post) ops haty had hp,
            ih hpre, processBatch_cons_parse_ok p pretty a pre ops haty had hp]
          simp [List.append_assoc]
        | some e =>
          exfalso
          rw [processBatch_cons_parse_fail p pretty a pre ops e haty had hp] at hpre
          simp at hpre
    · rw [processBatch_cons_nonevent p pretty a pre haty] at hpre
      rw [List.cons_append, processBatch_cons_nonevent p pretty a (pre ++ m :: post) haty,
        ih hpre, processBatch_cons_nonevent p pretty a pre haty]
      simp

/-- Claim C2, counterexample to the claim as stated: a streaming chunk whose
batch is `[event "BAD", event "[DONE]"]`, with a parse function that throws
on `"BAD"`, produces a run that never emits `termination(event-done)` — the
parse failure terminates the run before the sentinel is processed, so it is
not true that *whenever* a demuxed event carries `[DONE]` the run emits
`termination(event-done)`. -/
theorem event_done_cex :
    OutputEvent.termination "event-done" ∉
      (chatGenerateContent ⟨⟨"openai", none⟩, true, false⟩
        ⟨Except.ok ⟨⟨"u", "POST", [], "b"⟩, "sse",
            fun d _ => if d = "BAD" then ([], some "boom") else ([], none)⟩, false,
          Except.ok ⟨Except.ok "",
            some [ReadItem.chunk
              [⟨"event", "BAD", none⟩, ⟨"event", "[DONE]", none⟩]]⟩⟩).output := by
  decide

/-- Claim C2 (amended): whenever the `[DONE]` sentinel event is reached with
no earlier message having terminated the run (the batch up to it leaves the
intake non-terminated), the pump emits `termination(event-done)`, and no wire
message after the sentinel — in the same batch (`post`) or in later chunks
(`rest`) — is surfaced, parsed or forwarded to the Part Transmitter: the
pump's events, surfaced messages and parse calls stop at the sentinel. -/
theorem event_done_terminates (p : ParseFn) (pretty : String)
    (pre post : List DemuxedItem) (rest : List ReadItem) (nm : Option String)
    (hpre : (processBatch p pretty ⟨false⟩ pre).st = ⟨false⟩) :
    pump p pretty ⟨false⟩
        (ReadItem.chunk (pre ++ (⟨"event", "[DONE]", nm⟩ : DemuxedItem) :: post) :: rest) =
      ⟨⟨true⟩,
        (processBatch p pretty ⟨false⟩ pre).events ++
          [OutputEvent.termination "event-done"],
        (processBatch p pretty ⟨false⟩ pre).surfaced ++ [⟨"event", "[DONE]", nm⟩],
        (processBatch p pretty ⟨false⟩ pre).parsed, false⟩ := by
  have hb := processBatch_append_done p pretty pre post ⟨"event", "[DONE]", nm⟩ rfl rfl hpre
  rw [pump_chunk_term p pretty _ rest (by rw [hb]), hb]

/-- Witness for the amended C2 theorem at concrete inputs: one successfully
parsed event precedes the sentinel, a trailing event and a whole further
chunk follow it and are ignored. -/
theorem event_done_terminates_w :
    pump (fun d _ => if d = "ok1" then (["A"], none) else ([], some "boom")) "P" ⟨false⟩
        [ReadItem.chunk
          [⟨"event", "ok1", none⟩, ⟨"event", "[DONE]", none⟩, ⟨"event", "tail", none⟩],
         ReadItem.chunk [⟨"event", "more", none⟩]] =
      ⟨⟨true⟩, [OutputEvent.op "A", OutputEvent.termination "event-done"],
        [⟨"event", "ok1", none⟩, ⟨"event", "[DONE]", none⟩], [("ok1", (none : Option String))], false⟩ := by
  have := event_done_terminates
    (fun d _ => if d = "ok1" then (["A"], none) else ([], some "boom")) "P"
    [⟨"event", "ok1", none⟩] [⟨"event", "tail", none⟩]
    [ReadItem.chunk [⟨"event", "more", none⟩]] none (by decide)
  exact this

/-- Claim C8: the diagnostic event carrying the serialized request body is
yielded only when the debug connection option is set and the deployment is in
development, and then it sits immediately after `start` (before any event
derived from the network call); with a production posture the whole observable
run is identical whatever the value of the debug option. -/
theorem debug_event_policy (i : InputModel) (env : Env) :
    (env.nodeEnvDevelopment = false →
      chatGenerateContent (setDebugFlag i true) env =
        chatGenerateContent (setDebugFlag i false) env) ∧
    (∀ s, OutputEvent.debugPrint s ∈ (chatGenerateContent i env).output →
      i.debugDispatchRequestbody = true ∧ env.nodeEnvDevelopment = true ∧
      (chatGenerateContent i env).output[1]? = some (OutputEvent.debugPrint s)) := by
  constructor
  · intro hdev
    obtain ⟨bo, dev, fo⟩ := env
    subst hdev
    cases bo with
    | error e => rfl
    | ok d =>
      simp [chatGenerateContent, setDebugFlag, Bool.and_false]
  · intro s hmem
    obtain ⟨mid, hout, hcases⟩ := run_shape i env
    rw [hout] at hmem
    have hnotmid : OutputEvent.debugPrint s ∉ mid := by
      intro h2
      rcases hcases with ⟨hops, _⟩ | ⟨l, t, hmid, hl, ht, _, _⟩
      · rcases hops _ h2 with ⟨o, ho⟩
        cases ho
      · rw [hmid] at h2
        rcases List.mem_append.1 h2 with h3 | h4
        · rcases hl _ h3 with ⟨o, ho⟩
          cases ho
        · have heq : OutputEvent.debugPrint s = t := by simpa using h4
          have := (runTerminalKind_facts i t ht).2.2
          rw [← heq] at this
          simp [OutputEvent.isDebug] at this
    rcases List.mem_cons.1 hmem with h | h
    · cases h
    rcases List.mem_append.1 h with h1 | h2
    · rcases debugEvs_spec i env with hnil | ⟨hflag, hdev, b, hb⟩
      · rw [hnil] at h1
        simp at h1
      · rw [hb] at h1
        have hsb : OutputEvent.debugPrint s = OutputEvent.debugPrint b := by
          simpa using h1
        obtain rfl : s = b := by
          cases hsb
          rfl
        refine ⟨hflag, hdev, ?_⟩
        rw [hout, hb]
        simp
    · exact absurd h2 hnotmid

/-- Witness for the C8 theorem: in a production posture a run with the debug
option on equals the run with it off. -/
theorem debug_event_policy_w :
    chatGenerateContent (setDebugFlag ⟨⟨"a", none⟩, false, false⟩ true)
        ⟨Except.error "x", false, Except.error "y"⟩ =
      chatGenerateContent (setDebugFlag ⟨⟨"a", none⟩, false, false⟩ false)
        ⟨Except.error "x", false, Except.error "y"⟩ :=
  (debug_event_policy ⟨⟨"a", none⟩, false, false⟩
    ⟨Except.error "x", false, Except.error "y"⟩).1 rfl

theorem run_fetchCall (i : InputModel) (dev : Bool)
    (fo : Except String ResponseModel) (d : Dispatch) :
    (chatGenerateContent i ⟨Except.ok d, dev, fo⟩).fetchCall =
      some ⟨d.request.url, "POST", d.request.headers, d.request.body⟩ := by
  cases fo with
  | error e => rfl
  | ok resp =>
    cases hstr : i.streaming with
    | true => simp [chatGenerateContent, hstr]
    | false =>
      cases htext : resp.textResult with
      | error e => simp [chatGenerateContent, hstr, htext]
      | ok body =>
        rcases hp : d.chatGenerateParse body none with ⟨ops, oe⟩
        cases oe with
        | none => simp [chatGenerateContent, hstr, htext, hp]
        | some e => simp [chatGenerateContent, hstr, htext, hp]

/-- Claim C9: every invocation that reaches the network call issues it with
method `POST` unconditionally, forwarding the dispatch request's url, headers
and body unchanged; the request's `method` field is never consulted — the
whole observable run is unchanged under any replacement of that field. -/
theorem fetch_method_post (i : InputModel) (env : Env) (d : Dispatch) (m : String)
    (h : env.buildOutcome = Except.ok d) :
    (chatGenerateContent i env).fetchCall =
      some ⟨d.request.url, "POST", d.request.headers, d.request.body⟩ ∧
    chatGenerateContent i
        ⟨Except.ok (withRequestMethod d m), env.nodeEnvDevelopment, env.fetchOutcome⟩ =
      chatGenerateContent i env := by
  obtain ⟨bo, dev, fo⟩ := env
  cases h
  exact ⟨run_fetchCall i dev fo d, rfl⟩

/-- Witness for the C9 theorem: a dispatch whose request says `PUT` is still
fetched with `POST`. -/
theorem fetch_method_post_w :
    (chatGenerateContent ⟨⟨"openai", none⟩, false, false⟩
        ⟨Except.ok ⟨⟨"u", "PUT", [("k", "v")], "b"⟩, "sse", fun _ _ => ([], none)⟩, false,
          Except.error "x"⟩).fetchCall =
      some ⟨"u", "POST", [("k", "v")], "b"⟩ :=
  (fetch_method_post ⟨⟨"openai", none⟩, false, false⟩
    ⟨Except.ok ⟨⟨"u", "PUT", [("k", "v")], "b"⟩, "sse", fun _ _ => ([], none)⟩, false,
      Except.error "x"⟩
    ⟨⟨"u", "PUT", [("k", "v")], "b"⟩, "sse", fun _ _ => ([], none)⟩ "DELETE" rfl).1

/-- Claim C4, counterexample to the claim as stated: a streaming run whose
first chunk parses into one operation and whose next read fails shows
successful output operations preceding a terminal `error(dispatch-read)` —
so the non-streaming parse failure is not the only configuration in which
successful output operations precede a terminal error. -/
theorem ops_before_error_cex :
    (chatGenerateContent ⟨⟨"openai", none⟩, true, false⟩
        ⟨Except.ok ⟨⟨"u", "POST", [], "b"⟩, "sse", fun _ _ => (["A"], none)⟩, false,
          Except.ok ⟨Except.ok "",
            some [ReadItem.chunk [⟨"event", "x", none⟩],
              ReadItem.readError "boom"]⟩⟩).output =
      [OutputEvent.start, OutputEvent.op "A",
        OutputEvent.error "dispatch-read" "**[Streaming Issue] Openai**: boom" false] := by
  decide

/-- Claim C4 (amended): in non-streaming mode, when the body read succeeds
and the parse call fails, the run ends with `error(dispatch-parse)` while
every operation the parse call already emitted stays in the output before the
error — and, within non-streaming mode, this parse-failure configuration is
the only one in which successful output operations and a terminal error
coexist (in streaming mode operations may also precede `dispatch-read` or
`dispatch-parse` errors). -/
theorem ns_parse_fail_coexistence (i : InputModel) (env : Env)
    (h : i.streaming = false) :
    (((chatGenerateContent i env).output.any OutputEvent.isOpEvent = true ∧
        (chatGenerateContent i env).output.any OutputEvent.isErrorEvent = true) ↔
      (nsReadOkParseFail i env = true ∧ nsParsedOps i env ≠ [])) ∧
    (nsReadOkParseFail i env = true →
      (chatGenerateContent i env).output =
        OutputEvent.start :: (debugEvs i env ++
          ((nsParsedOps i env).map OutputEvent.op ++
            [OutputEvent.error "dispatch-parse" (nsParseErrMsg i env) true]))) := by
  obtain ⟨bo, dev, fo⟩ := env
  cases bo with
  | error e =>
    simp [chatGenerateContent, nsReadOkParseFail, nsParsedOps, yieldStart, yieldError,
      OutputEvent.isOpEvent, OutputEvent.isErrorEvent, h]
  | ok d =>
    cases fo with
    | error e =>
      by_cases hc : (i.debugDispatchRequestbody && dev) = true <;>
        simp [chatGenerateContent, nsReadOkParseFail, nsParsedOps, yieldStart, yieldError,
          OutputEvent.isOpEvent, OutputEvent.isErrorEvent, OutputEvent.isDebug, h, hc]
    | ok resp =>
      cases htext : resp.textResult with
      | error e =>
        by_cases hc : (i.debugDispatchRequestbody && dev) = true <;>
          simp [chatGenerateContent, nsReadOkParseFail, nsParsedOps, yieldStart, yieldError,
            OutputEvent.isOpEvent, OutputEvent.isErrorEvent, h, hc, htext]
      | ok body =>
        rcases hp : d.chatGenerateParse body none with ⟨ops, oe⟩
        cases oe with
        | none =>
          by_cases hc : (i.debugDispatchRequestbody && dev) = true <;>
            simp [chatGenerateContent, nsReadOkParseFail, nsParsedOps, yieldStart,
              OutputEvent.isOpEvent, OutputEvent.isErrorEvent, h, hc, htext, hp]
        | some e =>
          cases ops with
          | nil =>
            by_cases hc : (i.debugDispatchRequestbody && dev) = true <;>
              simp [chatGenerateContent, nsReadOkParseFail, nsParsedOps, nsParseErrMsg,
                debugEvs, yieldStart, yieldError, OutputEvent.isOpEvent,
                OutputEvent.isErrorEvent, h, hc, htext, hp]
          | cons o ops2 =>
            by_cases hc : (i.debugDispatchRequestbody && dev) = true <;>
              simp [chatGenerateContent, nsReadOkParseFail, nsParsedOps, nsParseErrMsg,
                debugEvs, yieldStart, yieldError, OutputEvent.isOpEvent,
                OutputEvent.isErrorEvent, h, hc, htext, hp]

/-- Witness for the amended C4 theorem at concrete inputs: one emitted
operation survives in the output right before the parse error. -/
theorem ns_parse_fail_coexistence_w :
    (chatGenerateContent ⟨⟨"openai", none⟩, false, false⟩
        ⟨Except.ok ⟨⟨"u", "POST", [], "b"⟩, "sse", fun _ _ => (["A"], some "bad")⟩, false,
          Except.ok ⟨Except.ok "nj", none⟩⟩).output =
      [OutputEvent.start, OutputEvent.op "A",
        OutputEvent.error "dispatch-parse"
          (" **[Parsing Issue] Openai**: bad.\nInput data: nj.\nPlease open a support ticket.")
          true] :=
  (ns_parse_fail_coexistence ⟨⟨"openai", none⟩, false, false⟩
    ⟨Except.ok ⟨⟨"u", "POST", [], "b"⟩, "sse", fun _ _ => (["A"], some "bad")⟩, false,
      Except.ok ⟨Except.ok "nj", none⟩⟩ rfl).2 rfl
